import Mathlib

/-!
Verification of the uob-chatbot repository against its natural-language
specification.

The repository has two Flask application variants:
* `app.py` — a keyword-matching chatbot over a hardcoded knowledge base
  (`KNOWLEDGE_BASE`, `find_best_response`, `/api/chat`, `/api/health`);
* `app_old.py` — a RAG pipeline variant (`chat` with source attribution,
  `/api/history/<id>`).

This file gives a shallow embedding of the string-level and state-level
behaviour of those handlers.  Python string primitives (`in`, `lower`,
`strip`, `replace`, `Path(...).name`, `'sep'.join`) are modelled by
structurally recursive functions over `List Char` so that every definition
evaluates inside the kernel.  The Flask conversation dictionary is modelled
as an insertion-ordered association list, which matches Python dict
semantics for the operations the handlers perform.  Timestamps
(`datetime.now().isoformat()`) are passed in as explicit parameters.
-/

/-! ## Python string primitives, modelled over `List Char` -/

/-- Occurrence of `nd` as a contiguous sublist of the second argument;
model of Python `nd in hay` for strings. -/
def isSubList (nd : List Char) : List Char → Bool
  | [] => nd.isEmpty
  | c :: t => nd.isPrefixOf (c :: t) || isSubList nd t

/-- Python `needle in hay` (substring containment). -/
def pyIn (needle hay : String) : Bool := isSubList needle.data hay.data

/-- Python `s.lower()` (ASCII case folding; every string the handlers
lowercase in this repository is ASCII). -/
def lowerStr (s : String) : String := ⟨s.data.map Char.toLower⟩

/-- Python whitespace as stripped by `str.strip()`. -/
def pySpace (c : Char) : Bool :=
  c = ' ' || c = '\t' || c = '\n' || c = '\r' || c = '\x0b' || c = '\x0c'

/-- Python `s.strip()`. -/
def stripStr (s : String) : String :=
  ⟨((s.data.dropWhile pySpace).reverse.dropWhile pySpace).reverse⟩

/-- Fuelled worker for Python `str.replace` (non-overlapping, left to
right); the fuel is the length of the scanned list, enough because each
step consumes at least one character. -/
def replaceAux (pat rep : List Char) : Nat → List Char → List Char
  | 0, l => l
  | _ + 1, [] => []
  | fuel + 1, c :: t =>
    if pat.isPrefixOf (c :: t) then
      rep ++ replaceAux pat rep fuel (List.drop pat.length (c :: t))
    else c :: replaceAux pat rep fuel t

/-- Python `s.replace(pat, rep)`. -/
def pyReplace (s pat rep : String) : String :=
  ⟨replaceAux pat.data rep.data s.data.length s.data⟩

/-- Python `Path(s).name`: the part after the last `/`. -/
def pathName (s : String) : String :=
  ⟨(s.data.reverse.takeWhile (fun c => c != '/')).reverse⟩

/-- Python `sep.join(l)`. -/
def joinWith (sep : String) : List String → String
  | [] => ""
  | [x] => x
  | x :: xs => x ++ sep ++ joinWith sep xs

/-! ## The knowledge base of `app.py`

One entry per key of the Python dict `KNOWLEDGE_BASE`, in insertion
order.  Keyword lists and response texts are verbatim from `app.py`
(apostrophes written `\x27`). -/

structure KBEntry where
  category : String
  keywords : List String
  response : String
deriving DecidableEq

def courses_undergraduate : KBEntry where
  category := "courses_undergraduate"
  keywords := ["undergraduate", "ug", "bachelor", "bsc", "ba", "beng", "msci", "llb", "degree", "course", "program", "study"]
  response := "📚 **Undergraduate Courses at University of Bristol**

**Available Programs (30 courses):**

**Computer Science & Technology:**
- BSc Computer Science: 3 years, £9,250/yr (UK), £23,000/yr (Int\x27l)
- BSc Artificial Intelligence: 3 years, £9,250/yr (UK), £23,200/yr (Int\x27l)
- BSc Software Engineering: 3 years, £9,250/yr (UK), £22,500/yr (Int\x27l)

**Engineering:**
- BEng Mechanical Engineering: 3.5 years, £9,250/yr (UK), £24,000/yr (Int\x27l)
- BEng Civil Engineering: 3.5 years, £9,250/yr (UK), £23,500/yr (Int\x27l)
- BEng Electrical Engineering: 3.5 years, £9,250/yr (UK), £23,800/yr (Int\x27l)

**Sciences:**
- MSci Mathematics: 4 years, £9,250/yr (UK), £23,500/yr (Int\x27l)
- BSc Physics: 3 years, £9,250/yr (UK), £22,800/yr (Int\x27l)
- BSc Chemistry: 3 years, £9,250/yr (UK), £22,000/yr (Int\x27l)
- BSc Biochemistry, Biomedical Sciences, Psychology, Neuroscience

**Business & Social Sciences:**
- BSc Economics, Finance & Accounting
- BA Business Management
- LLB Law
- BA Politics, International Relations, History

**Arts & Humanities:**
- BA English Literature, Creative Writing
- BA Modern Languages (4 years)
- BA Archaeology

**Environmental:**
- BSc Geography, Environmental Science, Climate Science
- BSc Sociology, Anthropology

**Start Date:** September 21, 2026
**All courses:** Full-time, 360 credits (3yr) or 420-480 credits (longer programs)

Source: university_of_bristol_courses_dataset.pdf"

def courses_postgraduate : KBEntry where
  category := "courses_postgraduate"
  keywords := ["postgraduate", "masters", "msc", "ma", "mba", "pgt", "pgr", "taught", "research"]
  response := "🎓 **Postgraduate Courses at University of Bristol**

**Available Programs (30 courses):**

**Technology & Data:**
- MSc Data Science: £12,000/yr (UK), £26,500/yr (Int\x27l)
- MSc Artificial Intelligence: £13,000/yr (UK), £27,000/yr (Int\x27l)
- MSc Cyber Security: £13,000/yr (UK), £27,000/yr (Int\x27l)
- MSc Robotics: £15,000/yr (UK), £30,000/yr (Int\x27l)
- MSc Software Engineering, Bioinformatics

**Sciences:**
- MSc Physics (Research), Astrophysics, Chemistry
- MSc Materials Science, Biomedicine, Neuroscience
- MSc Psychology, Clinical Psychology

**Business:**
- MSc Finance: £17,000/yr (UK), £34,000/yr (Int\x27l)
- MSc Accounting: £16,000/yr (UK), £32,000/yr (Int\x27l)
- MBA: 2 years, £21,000/yr (UK), £36,000/yr (Int\x27l)
- MSc International Business, Marketing, Management

**Health & Education:**
- MSc Public Health, Nursing
- MSc Education, Digital Education

**Arts:**
- MSc English Literature, MA History
- MA Film & Television, MA Fine Art

**Environmental:**
- MSc Climate Science: £12,500/yr (UK), £26,000/yr (Int\x27l)

**Duration:** 1 year (180 credits) except MBA (2 years, 240 credits)
**Start Date:** September 28, 2026
**Mode:** Full-time

Source: university_of_bristol_courses_dataset.pdf"

def accommodation : KBEntry where
  category := "accommodation"
  keywords := ["accommodation", "housing", "halls", "residence", "rent", "room", "living", "stay", "hiatt", "churchill", "wills", "goldney", "colston", "orchard"]
  response := "🏠 **University of Bristol Accommodation**

**On-Campus Halls (2026-27):**

**Stoke Bishop Area:**
- Hiatt Baker Hall: £185-£240/week (En-suite to Studio)
  Facilities: Gym, Study Lounge
- Churchill Hall: £180-£230/week
  Facilities: Music Room, Common Room
- Wills Hall: £190-£250/week
  Facilities: Library, Games Room

**City Centre:**
- Colston Street: £200-£260/week
  Facilities: Cinema Room, Laundry
- Orchard Heights: £210-£270/week
  Facilities: 24/7 Security, Gym

**Clifton:**
- Goldney Hall: £195-£255/week
  Facilities: Gardens, Bar, Music Room

**Harbourside:**
- Riverside House: £205-£265/week
  Facilities: Waterfront, Study Pods

**Contract:** September 15, 2026 - June 15, 2027 (39 weeks)
**Room Types:** En-suite, Premium En-suite, Studio

**Accommodation Guarantee:**
First-year undergraduates and new international postgraduates guaranteed university accommodation if applied by deadline.

**Contact:**
Accommodation Office: accommodation@university.ac.uk
Phone: +44 (0)20 7946 8200
Location: Accommodation Office, Campus West
Hours: Mon-Fri 9 AM-5 PM

Sources: university_of_bristol_accommodation_dataset.pdf, Accommodation_Dataset_AI_Framework.pdf"

def extensions_ec : KBEntry where
  category := "extensions_ec"
  keywords := ["extension", "exceptional circumstances", "ec", "deadline", "late", "illness", "mitigating", "appeal", "suspension"]
  response := "📝 **Extensions & Exceptional Circumstances (EC)**

**What are they?**
- Extension: Deadline extension for coursework due to valid reasons
- EC: Significant events affecting ability to complete assessments/exams
- Suspension: Temporary withdrawal from studies

**Eligible Reasons:**
- Medical illness (physical/mental health)
- Bereavement of close relative
- Victim of crime or serious incident
- Unavoidable emergencies
- Unexpected caring responsibilities
- Verified IT failure

**NOT Eligible:**
- Minor illness (<24hrs unless affecting exam)
- Last-minute IT/printer problems
- Poor time management
- Travel disruptions (unless major)

**Required Documents:**
- GP/hospital medical certificates (dated, signed)
- Police reports (for crime)
- Death certificates (bereavement)
- Counsellor/therapist letters
- Official employer letters

**Application Process:**
- Extensions: Submit BEFORE deadline via online form
- EC: Within 5 working days of affected assessment
- Suspension: Through School office with documents

**Appeals:**
Within 10 working days of decision rejection

**Contact:**
EC Support Team: ec-support@bristol.ac.uk
Phone: +44 117 900 1234
Hours: Mon-Fri 09:30-16:30

Source: Extensions_ECs_Dissertation_Ready.pdf"

def study_skills : KBEntry where
  category := "study_skills"
  keywords := ["study skills", "writing", "workshop", "academic", "essay", "dissertation", "referencing", "citation", "tutoring", "support"]
  response := "📖 **Study Skills & Writing Workshops**

**Services Offered:**
- Academic writing (structure, argumentation)
- Referencing (Harvard, APA, IEEE)
- Dissertation & project planning
- Critical reading & literature synthesis
- Time management & productivity
- Exam preparation & revision
- Note-taking & memory techniques
- Presentation skills

**Workshop Formats:**
- One-to-one tutorials: 30-60 min personalized sessions
- Small-group workshops: 60-90 min (max 20 students)
- Drop-in clinics: 15-20 min quick queries
- Online modules: Self-paced e-learning
- Webinars: Live Q&A with recordings

**Key Workshops:**
- Referencing Essentials (Harvard): 90 mins, termly
- Academic Writing: Argument & Structure: 120 mins
- Dissertation Planning: 60-90 mins, on request
- English for Academic Purposes: 45 mins weekly
- Exam Revision Techniques: 60 mins, termly

**Eligibility:**
All UG, PGT, PGR students
International students supported

**Booking:**
Via Study Skills portal - book in advance
One-to-one requires 24hr cancellation notice

**Contact:**
Study Skills Team: study-skills@bristol-example.ac.uk
Phone: +44 117 900 2200
Location: Student Support Building, Room 2.14
Hours: Mon-Fri 09:30-16:30

Source: Study_Skills_Writing_Workshops_Dataset.pdf"

def scholarships : KBEntry where
  category := "scholarships"
  keywords := ["scholarship", "funding", "bursary", "financial", "aid", "money", "think big", "great", "commonwealth", "stipend"]
  response := "💰 **Scholarships & Funding**

**Available Funding:**

**Think Big Scholarships:**
- Undergraduate: For international UG applicants
- Postgraduate: For international PGT applicants
- Deadline: April annually
- Documents: Personal statement, transcript

**UK Home Bursary:**
- Means-tested for UK students
- Low-income eligibility
- Deadline: June annually
- Documents: Income statement, UCAS ID

**GREAT Scholarship:**
- For eligible nationalities (PGT)
- Deadline: March annually
- Documents: Passport, transcript, essay

**Commonwealth Shared Scholarship:**
- Developing Commonwealth nations
- Deadline: December (prior year)
- Documents: Proof of nationality, offer letter

**Postgraduate Research Studentship:**
- For PGR offer-holders
- Covers tuition + living stipend
- Documents: Research proposal, references

**Eligibility Criteria:**
- Home and International students
- Outstanding academic performance
- Confirmed offer to study at UoB
- Financial need (for bursaries)

**Required Documents:**
- Academic transcripts & certificates
- Personal statement
- Financial evidence (for bursaries)
- Reference letters
- Proof of nationality

**Application:**
Submit via University of Bristol Funding Portal
www.bristol.ac.uk/fees-funding/awards

**Appeals:**
Within 10 working days of decision

**Contact:**
Scholarships Office: funding-support@bristol.ac.uk
Phone: +44 (0)117 900 5678
Hours: Mon-Fri 09:00-17:00

Source: University_of_Bristol_Scholarships_and_Funding_Dataset.pdf"

def sports : KBEntry where
  category := "sports"
  keywords := ["sport", "sports", "gym", "fitness", "exercise", "club", "team", "football", "rugby", "rowing", "activities", "recreation"]
  response := "⚽ **Sports, Fitness & Activities**

**Sports Categories:**

**Performance & Elite Sport:**
Structured support for national/international athletes
Coaching, strength & conditioning, physiotherapy

**Team & Competitive Clubs:**
70+ SU-affiliated sports clubs:
Football, rowing, hockey, cricket, netball, ultimate frisbee

**Recreational & Wellbeing:**
Fitness classes: yoga, pilates, HIIT
Gym sessions, intramural leagues

**Outdoor & Adventure:**
Hiking, climbing, surfing, paddleboarding, mountain biking

**Inclusive Sport:**
Adaptive Sport sessions, Women in Sport programmes

**Membership Types:**
- Sport Membership: Access to gyms, courts, fitness classes
- Club Membership: Join SU sports clubs
- Performance Membership: By invitation, specialist support
- Activity Pass: Pay-as-you-go sessions

**Key Facilities:**
- Coombe Dingle Sports Complex: Pitches, athletics track
- Indoor Sports Centre (Tyndall Avenue): Main gym, sports hall
- Clifton Hill House Gym: Compact fitness suite
- University Pool: 25m swimming pool

**Leadership Opportunities:**
- Sport Leadership Pathway
- Bristol Plus Award (Sport Track)
- Coaching qualifications (Level 1-3)

**Wellbeing Initiatives:**
- Active Residences: Free sessions in halls
- Move Programme: Dance, meditation, yoga
- Mental Fitness Workshops

**Contact:**
Sport Enquiries: sport-enquiries@bristol.ac.uk
Phone: +44 (0)117 900 5555
Location: Indoor Sports Centre, Tyndall Avenue

SU Sport: su-sport@bristol.ac.uk
Phone: +44 (0)117 455 6100

Source: University_of_Bristol_Sports_Fitness_and_Activities_Handbook_Dataset.pdf"

def contacts_departments : KBEntry where
  category := "contacts_departments"
  keywords := ["contact", "email", "phone", "department", "office", "engineering", "computer science", "business", "medicine", "law", "arts"]
  response := "📞 **Department Contacts (Academic Year 2025-2026)**

**Department of Engineering:**
Head: Prof. James Thompson - j.thompson@university.ac.uk
Senior Tutor: Dr. Sarah Mitchell - s.mitchell@university.ac.uk
Admin: engineering.admin@university.ac.uk / +44 (0)20 7946 1235
Office Hours: Mon-Fri 9-5 PM

**Department of Computer Science:**
Head: Prof. Richard Davies - r.davies@university.ac.uk
Senior Tutor: Dr. Oliver Davies - o.davies@university.ac.uk
Admin: computerscience.admin@university.ac.uk / +44 (0)20 7946 2200

**Department of Natural Sciences:**
Head: Prof. David Armstrong - d.armstrong@university.ac.uk
Senior Tutor: Dr. Helen Wright - h.wright@university.ac.uk
Admin: science.admin@university.ac.uk / +44 (0)20 7946 4200

**Department of Social Sciences:**
Head: Prof. Michael Stevens - m.stevens@university.ac.uk
Senior Tutor: Dr. Jennifer Hayes - j.hayes@university.ac.uk
Admin: socialsciences.admin@university.ac.uk / +44 (0)20 7946 5200

**Department of Business & Management:**
Head: Prof. Marcus Foster - m.foster@university.ac.uk
Senior Tutor: Dr. Sandra Hughes - s.hughes@university.ac.uk
Admin: business.admin@university.ac.uk / +44 (0)20 7946 6200

**Department of Arts & Humanities:**
Head: Prof. Eleanor Bennett - e.bennett@university.ac.uk
Admin: arts.admin@university.ac.uk / +44 (0)20 7946 7200

**Department of Medicine & Health Sciences:**
Head: Prof. Christopher Anderson - c.anderson@university.ac.uk
Admin: medicine.admin@university.ac.uk / +44 (0)20 7946 8200

**Department of Law:**
Head: Prof. Richard Campbell - r.campbell@university.ac.uk
Admin: law.admin@university.ac.uk / +44 (0)20 7946 9200

Source: Document (1).pdf - University Student Contact Directory"

def student_services : KBEntry where
  category := "student_services"
  keywords := ["student services", "support", "wellbeing", "counseling", "disability", "health", "careers", "library", "registry", "finance"]
  response := "🎓 **Central Student Support Services**

**Academic Support:**
- Academic Skills Centre: academic.skills@university.ac.uk / +44 (0)20 7946 6000
- Library Services: library@university.ac.uk / +44 (0)20 7946 6100 (24/7 term time)
- Maths Help Centre: maths.help@university.ac.uk
- Writing Centre: writing.centre@university.ac.uk

**Wellbeing & Health:**
- Wellbeing Service: wellbeing@university.ac.uk / +44 (0)20 7946 7000
- 24/7 Emergency: wellbeing.emergency@university.ac.uk / +44 (0)20 7946 7999
- Student Health Centre: health.centre@university.ac.uk / +44 (0)20 7946 7200
- Disability Service: disability.service@university.ac.uk / +44 (0)20 7946 7100
- International Support: international.support@university.ac.uk

**Financial & Administrative:**
- Student Finance: student.finance@university.ac.uk / +44 (0)20 7946 8000
- Registry Services: registry@university.ac.uk / +44 (0)20 7946 8100
- ID Card Office: id.cards@university.ac.uk
- Accommodation: accommodation@university.ac.uk / +44 (0)20 7946 8200

**Careers & Employment:**
- Careers Service: careers@university.ac.uk / +44 (0)20 7946 8300
- Work Placements: placements@university.ac.uk

**Student Life:**
- Students\x27 Union: su.reception@university.ac.uk / +44 (0)20 7946 8400
- SU Advice Centre: su.advice@university.ac.uk
- Sports Centre: sports@university.ac.uk / +44 (0)20 7946 8500
- Campus Security (24/7): security@university.ac.uk / +44 (0)20 7946 8888
- IT Help Desk: it.helpdesk@university.ac.uk

**Exams:**
- Exams Office: exams@university.ac.uk / +44 (0)20 7946 8700
- Mitigating Circumstances: mitcircs@university.ac.uk

**EMERGENCY CONTACTS:**
- Campus Security: +44 (0)20 7946 8888 (24/7)
- Medical Emergency: 999
- Mental Health Crisis: +44 (0)20 7946 7999 (24/7)
- NHS Non-Emergency: 111

Source: Document (1).pdf - University Student Contact Directory"

/-- The dict `KNOWLEDGE_BASE` of `app.py`, in insertion order. -/
def KNOWLEDGE_BASE : List KBEntry :=
  [courses_undergraduate, courses_postgraduate, accommodation, extensions_ec,
   study_skills, scholarships, sports, contacts_departments, student_services]

/-- The fixed menu text `find_best_response` returns when no keyword
matches (verbatim from `app.py`). -/
def GENERIC_MENU : String := "I can help you with University of Bristol information from these datasets:

📚 Undergraduate & Postgraduate Courses
🏠 Accommodation (Halls & Housing)
📝 Extensions & Exceptional Circumstances
📖 Study Skills & Writing Workshops
💰 Scholarships & Funding
⚽ Sports, Fitness & Activities
📞 Department Contacts
🎓 Student Support Services

All responses are sourced from official UoB datasets provided for this chatbot.

What would you like to know?"

/-! ## The keyword fallback matcher `find_best_response` of `app.py` -/

/-- The score loop of `find_best_response`: how many keywords of `e`
occur as substrings of the (already lowercased and stripped) message. -/
def score (message : String) (e : KBEntry) : Nat :=
  e.keywords.countP (fun keyword => pyIn keyword message)

/-- One iteration of the category loop of `find_best_response`: the
`(score, response)` pair appended to `matches` when the score is
positive. -/
def matchEntry (message : String) (e : KBEntry) : Option (Nat × String) :=
  if score message e > 0 then some (score message e, e.response) else none

/-- The `matches` list built by `find_best_response`: one
`(score, response)` pair per knowledge-base category with positive
score, in insertion order. -/
def matchesFor (message : String) : List (Nat × String) :=
  KNOWLEDGE_BASE.filterMap (matchEntry message)

/-- Stable insertion (descending by score) used to model
`matches.sort(reverse=True, key=lambda x: x[0])`: the inserted element
came earlier in the original list, so it goes before any element of
equal score. -/
def insertDesc (x : Nat × String) : List (Nat × String) → List (Nat × String)
  | [] => [x]
  | y :: ys => if x.1 ≥ y.1 then x :: y :: ys else y :: insertDesc x ys

/-- Stable descending sort by score, the semantics Python guarantees for
`list.sort(reverse=True, key=...)`. -/
def sortDesc : List (Nat × String) → List (Nat × String)
  | [] => []
  | x :: xs => insertDesc x (sortDesc xs)

/-- Specification device: the first element of a list attaining the
maximal score (later elements replace the current best only when
strictly greater).  `sortDesc_head` below shows it is what a stable
descending sort puts in front. -/
def firstMax : List (Nat × String) → Option (Nat × String)
  | [] => none
  | x :: xs =>
    match firstMax xs with
    | none => some x
    | some m => if m.1 > x.1 then some m else some x

/-- `find_best_response` of `app.py`.  The `conversation_id` parameter is
present in the source and unused there as well. -/
def find_best_response (user_message : String) (conversation_id : String) : String :=
  let message := stripStr (lowerStr user_message)
  let matchList := matchesFor message
  match sortDesc matchList with
  | (_, r) :: _ => r
  | [] => GENERIC_MENU

/-! ## Conversation store and the `/api/chat` handler of `app.py`

`conversations` is a Python dict from conversation id to a list of turn
dicts; modelled as an insertion-ordered association list. -/

structure Turn where
  role : String
  message : String
  timestamp : String
deriving DecidableEq

abbrev ConvStore := List (String × List Turn)

/-- Dict lookup (`d[k]` / `k in d`). -/
def dictGet (d : ConvStore) (k : String) : Option (List Turn) :=
  match d with
  | [] => none
  | (k', v) :: rest => if k' = k then some v else dictGet rest k

/-- Dict lookup with default (`d.get(k, dflt)`). -/
def dictGetD (d : ConvStore) (k : String) (dflt : List Turn) : List Turn :=
  (dictGet d k).getD dflt

/-- Dict assignment `d[k] = v`: overwrite in place if the key exists,
otherwise insert at the end (Python dicts preserve insertion order). -/
def dictSet (d : ConvStore) (k : String) (v : List Turn) : ConvStore :=
  match d with
  | [] => [(k, v)]
  | (k', v') :: rest => if k' = k then (k, v) :: rest else (k', v') :: dictSet rest k v

/-- `if conversation_id not in conversations: conversations[conversation_id] = []`. -/
def ensureKey (d : ConvStore) (k : String) : ConvStore :=
  if (dictGet d k).isNone then dictSet d k [] else d

/-- `conversations[conversation_id].append(turn)`. -/
def appendTurn (d : ConvStore) (k : String) (t : Turn) : ConvStore :=
  dictSet d k (dictGetD d k [] ++ [t])

/-- Body of a JSON reply from a chat handler. -/
inductive ChatResult where
  | success (response : String)
  | failure (errMsg : String)
deriving DecidableEq

/-- A handler outcome: the conversation store afterwards, the HTTP status
code and the JSON body. -/
structure ChatReply where
  store : ConvStore
  status : Nat
  body : ChatResult
deriving DecidableEq

/-- The `POST /api/chat` handler of `app.py`.  `msgField` and `cidField`
model `data.get('message', '')` and `data.get('conversation_id',
'default')`; the two timestamps are the values of
`datetime.now().isoformat()` at the two `append` calls. -/
def chat (convs : ConvStore) (msgField cidField : Option String) (t1 t2 : String) : ChatReply :=
  let user_message := stripStr (msgField.getD "")
  let conversation_id := cidField.getD "default"
  if user_message = "" then
    { store := convs, status := 400, body := .failure "Empty message" }
  else
    let c1 := ensureKey convs conversation_id
    let c2 := appendTurn c1 conversation_id ⟨"user", user_message, t1⟩
    let bot_response := find_best_response user_message conversation_id
    let c3 := appendTurn c2 conversation_id ⟨"bot", bot_response, t2⟩
    { store := c3, status := 200, body := .success bot_response }

/-! ## The RAG variant `app_old.py` -/

/-- Outcome of `qa_chain.invoke({"query": ...})`: either a result text
together with the `source` metadata paths of the returned source
documents, or a raised exception (carrying `str(e)`). -/
inductive RagOutcome where
  | ok (result : String) (sourcePaths : List String)
  | raised (e : String)

/-- `clean_name` computed in the source loop of `app_old.py`:
`Path(source).name` then `.replace('_', ' ').replace('.pdf', '')`. -/
def clean_name (source : String) : String :=
  pyReplace (pyReplace (pathName source) "_" " ") ".pdf" ""

/-- One step of the dedup loop of `app_old.py`: append the name unless
already present (`if clean_name not in sources: sources.append(...)`). -/
def dedupStep (sources : List String) (c : String) : List String :=
  if sources.contains c then sources else sources ++ [c]

/-- The dedup loop of `app_old.py`, keeping first occurrences in order. -/
def dedupFS (l : List String) : List String :=
  l.foldl dedupStep []

/-- Source-attribution post-processing of `app_old.py` (lines 175-188):
dedup the cleaned source filenames, show at most 3, append them after a
fixed `**Sources:**` label. -/
def add_sources (bot_response : String) (sourcePaths : List String) : String :=
  if sourcePaths.isEmpty then bot_response
  else
    let sources := dedupFS (sourcePaths.map clean_name)
    if sources.isEmpty then bot_response
    else
      let source_list := joinWith "\n" ((sources.take 3).map (fun s => "  • " ++ s))
      bot_response ++ "\n\n**Sources:**\n" ++ source_list

/-- The `POST /api/chat` handler of `app_old.py`.  `qaReady` models
`qa_chain is not None`; `rag` is the outcome of the pipeline invocation;
an exception anywhere in the `try` block is caught and mapped to a 500
JSON error (`'Error processing your question: ' + str(e)`). -/
def chat_old (qaReady : Bool) (rag : RagOutcome) (convs : ConvStore)
    (msgField cidField : Option String) (t1 t2 : String) : ChatReply :=
  if !qaReady then
    { store := convs, status := 500,
      body := .failure "RAG system not initialized. Please check server logs." }
  else
    let user_message := stripStr (msgField.getD "")
    let conversation_id := cidField.getD "default"
    if user_message = "" then
      { store := convs, status := 400, body := .failure "Empty message" }
    else
      let c1 := ensureKey convs conversation_id
      let c2 := appendTurn c1 conversation_id ⟨"user", user_message, t1⟩
      match rag with
      | .raised e =>
        { store := c2, status := 500,
          body := .failure ("Error processing your question: " ++ e) }
      | .ok result sourcePaths =>
        let bot_response := add_sources result sourcePaths
        let c3 := appendTurn c2 conversation_id ⟨"bot", bot_response, t2⟩
        { store := c3, status := 200, body := .success bot_response }

/-- The `GET /api/history/<conversation_id>` handler of `app_old.py`:
`conversations.get(conversation_id, [])` under HTTP 200. -/
def get_history (convs : ConvStore) (conversation_id : String) : Nat × List Turn :=
  (200, dictGetD convs conversation_id [])

/-! ## Definitions modelled from the spec

The spec was written from a third, "enhanced" application variant that is
not under `src/` (analytics counters, language detection, localized
labels).  The two definitions below embed what the spec says about it. -/

/-- Language buckets of the enhanced variant. -/
inductive Lang where
  | chinese | arabic | spanish | english
deriving DecidableEq

/-- Modelled from the spec: the language detector of the enhanced app
variant (absent from `src/`): any CJK codepoint → Chinese, any
Arabic-script codepoint → Arabic, text containing "qué"
(case-insensitive) and no CJK/Arabic → Spanish, anything else →
English. -/
def detect_language (s : String) : Lang :=
  if s.data.any (fun c => 0x4E00 ≤ c.toNat && c.toNat ≤ 0x9FFF) then .chinese
  else if s.data.any (fun c => 0x0600 ≤ c.toNat && c.toNat ≤ 0x06FF) then .arabic
  else if pyIn "qué" (lowerStr s) then .spanish
  else .english

/-- Modelled from the spec: the `satisfaction_rate` analytics value of
the enhanced app variant (absent from `src/`): `up / (up + down) * 100`,
defined as 0 when no ratings have been recorded. -/
def satisfaction_rate (up down : Nat) : ℚ :=
  if up + down = 0 then 0 else (up : ℚ) / (up + down) * 100

/-! ## Lemmas: the stable descending sort picks the first maximum -/

theorem insertDesc_head (x : Nat × String) (l : List (Nat × String)) :
    (insertDesc x l).head? =
      some (match l.head? with
            | none => x
            | some y => if x.1 ≥ y.1 then x else y) := by
  cases l with
  | nil => rfl
  | cons y ys =>
    by_cases h : x.1 ≥ y.1
    · simp [insertDesc, h]
    · simp [insertDesc, h]

theorem sortDesc_head (l : List (Nat × String)) : (sortDesc l).head? = firstMax l := by
  induction l with
  | nil => rfl
  | cons x xs ih =>
    rw [sortDesc, insertDesc_head, ih, firstMax]
    cases h : firstMax xs with
    | none => simp
    | some m =>
      simp only
      by_cases h1 : x.1 ≥ m.1
      · rw [if_pos h1, if_neg (by omega)]
      · rw [if_neg h1, if_pos (by omega)]

theorem firstMax_mem {l : List (Nat × String)} {m : Nat × String}
    (h : firstMax l = some m) : m ∈ l := by
  induction l with
  | nil => simp [firstMax] at h
  | cons x xs ih =>
    rw [firstMax] at h
    cases hx : firstMax xs with
    | none =>
      simp only [hx] at h
      injection h with h
      simp [h]
    | some y =>
      simp only [hx] at h
      by_cases hy : y.1 > x.1
      · rw [if_pos hy] at h
        injection h with h
        exact List.mem_cons_of_mem _ (ih (h ▸ hx))
      · rw [if_neg hy] at h
        injection h with h
        simp [← h]

theorem firstMax_append (A B : List (Nat × String)) (m : Nat × String)
    (hA : ∀ a ∈ A, a.1 < m.1) (hB : ∀ b ∈ B, b.1 ≤ m.1) :
    firstMax (A ++ m :: B) = some m := by
  induction A with
  | nil =>
    simp only [List.nil_append, firstMax]
    cases hb : firstMax B with
    | none => simp [hb]
    | some mb =>
      have hle := hB mb (firstMax_mem hb)
      have hng : ¬ mb.1 > m.1 := by omega
      simp only [hb, if_neg hng]
  | cons a A' ih =>
    have hrest := ih (fun p hp => hA p (List.mem_cons_of_mem _ hp))
    rw [List.cons_append, firstMax]
    have hgt : m.1 > a.1 := hA a (List.mem_cons_self _ _)
    simp only [hrest, if_pos hgt]

/-! ## Lemmas about the match list of `find_best_response` -/

theorem matchEntry_pos {msg : String} {e : KBEntry} (h : 0 < score msg e) :
    matchEntry msg e = some (score msg e, e.response) := by
  rw [matchEntry, if_pos h]

theorem mem_filterMap_matchEntry {msg : String} {l : List KBEntry} {a : Nat × String}
    (h : a ∈ l.filterMap (matchEntry msg)) :
    ∃ p ∈ l, 0 < score msg p ∧ a = (score msg p, p.response) := by
  obtain ⟨p, hp, he⟩ := List.mem_filterMap.1 h
  rw [matchEntry] at he
  by_cases hs : score msg p > 0
  · rw [if_pos hs] at he
    injection he with he
    exact ⟨p, hp, hs, he.symm⟩
  · rw [if_neg hs] at he
    cases he

/-- Shared argument: when the knowledge base splits as
`pre ++ e :: post` with `e` scoring positively, strictly above every
earlier category and at least every later one, `find_best_response`
returns `e`'s response. -/
theorem find_best_response_first_argmax (q cid : String) (pre post : List KBEntry) (e : KBEntry)
    (hsplit : KNOWLEDGE_BASE = pre ++ e :: post)
    (hpos : 0 < score (stripStr (lowerStr q)) e)
    (hpre : ∀ p ∈ pre, score (stripStr (lowerStr q)) p < score (stripStr (lowerStr q)) e)
    (hpost : ∀ p ∈ post, score (stripStr (lowerStr q)) p ≤ score (stripStr (lowerStr q)) e) :
    find_best_response q cid = e.response := by
  set msg := stripStr (lowerStr q) with hmsg
  have hM : matchesFor msg =
      pre.filterMap (matchEntry msg) ++
        (score msg e, e.response) :: post.filterMap (matchEntry msg) := by
    rw [matchesFor, hsplit, List.filterMap_append, List.filterMap_cons, matchEntry_pos hpos]
  have hfm : firstMax (matchesFor msg) = some (score msg e, e.response) := by
    rw [hM]
    apply firstMax_append
    · intro a ha
      obtain ⟨p, hp, -, rfl⟩ := mem_filterMap_matchEntry ha
      exact hpre p hp
    · intro b hb
      obtain ⟨p, hp, -, rfl⟩ := mem_filterMap_matchEntry hb
      exact hpost p hp
  have hhead : (sortDesc (matchesFor msg)).head? = some (score msg e, e.response) := by
    rw [sortDesc_head]; exact hfm
  rw [find_best_response]
  cases hs : sortDesc (matchesFor msg) with
  | nil => rw [hs] at hhead; cases hhead
  | cons p rest =>
    rw [hs] at hhead
    rw [List.head?_cons] at hhead
    injection hhead with hp
    rw [hp]

/-- Claim C1: for every query, `find_best_response` scores each category
by counting how many of its keyword strings occur as substrings of the
lowercased (and stripped) query, and returns the response of the first
category, in knowledge-base insertion order, attaining the maximal
score — in particular the strictly highest-scoring category wins, and a
tie goes to the category registered first. -/
theorem c1_first_max_category_wins (q cid : String) (pre post : List KBEntry) (e : KBEntry)
    (hsplit : KNOWLEDGE_BASE = pre ++ e :: post)
    (hpos : 0 < score (stripStr (lowerStr q)) e)
    (hpre : ∀ p ∈ pre, score (stripStr (lowerStr q)) p < score (stripStr (lowerStr q)) e)
    (hpost : ∀ p ∈ post, score (stripStr (lowerStr q)) p ≤ score (stripStr (lowerStr q)) e) :
    find_best_response q cid = e.response :=
  find_best_response_first_argmax q cid pre post e hsplit hpos hpre hpost

/-- Witness for C1 at a concrete query: `"scholarship funding money"`
hits three keywords of the scholarships category and none of any other
category, so its response is returned. -/
theorem c1_first_max_category_wins_witness :
    KNOWLEDGE_BASE =
      [courses_undergraduate, courses_postgraduate, accommodation, extensions_ec, study_skills]
        ++ scholarships ::
          [sports, contacts_departments, student_services] ∧
    0 < score (stripStr (lowerStr "scholarship funding money")) scholarships ∧
    find_best_response "scholarship funding money" "default" = scholarships.response :=
  ⟨rfl, by decide,
    c1_first_max_category_wins "scholarship funding money" "default"
      [courses_undergraduate, courses_postgraduate, accommodation, extensions_ec, study_skills]
      [sports, contacts_departments, student_services]
      scholarships rfl (by decide) (by decide) (by decide)⟩

/-- Claim C2: a query in which no keyword of any category occurs as a
substring makes `find_best_response` return the fixed generic menu
text, exactly. -/
theorem c2_zero_hits_generic_menu (q cid : String)
    (h : ∀ e ∈ KNOWLEDGE_BASE, score (stripStr (lowerStr q)) e = 0) :
    find_best_response q cid = GENERIC_MENU := by
  have hM : matchesFor (stripStr (lowerStr q)) = [] := by
    rw [matchesFor, List.filterMap_eq_nil_iff]
    intro e he
    rw [matchEntry, if_neg (by rw [h e he]; omega)]
  rw [find_best_response, hM]
  rfl

/-- Witness for C2: `"zzz qqq"` hits no keyword. -/
theorem c2_zero_hits_generic_menu_witness :
    (∀ e ∈ KNOWLEDGE_BASE, score (stripStr (lowerStr "zzz qqq")) e = 0) ∧
    find_best_response "zzz qqq" "default" = GENERIC_MENU :=
  ⟨by decide, c2_zero_hits_generic_menu "zzz qqq" "default" (by decide)⟩

/-- Claim C7: the query `"what accommodation options are there"` hits
exactly one keyword (`"accommodation"`, giving the accommodation
category score 1 while every other category scores 0), and
`find_best_response` returns the accommodation category's canned
response. -/
theorem c7_accommodation_query :
    find_best_response "what accommodation options are there" "default"
      = accommodation.response ∧
    score (stripStr (lowerStr "what accommodation options are there")) accommodation = 1 ∧
    ∀ e ∈ KNOWLEDGE_BASE, e.category ≠ "accommodation" →
      score (stripStr (lowerStr "what accommodation options are there")) e = 0 := by
  refine ⟨?_, by decide, by decide⟩
  exact find_best_response_first_argmax _ _
    [courses_undergraduate, courses_postgraduate] [extensions_ec,
      study_skills, scholarships, sports, contacts_departments, student_services]
    accommodation rfl (by decide) (by decide) (by decide)

/-! ## Lemmas about the conversation store -/

theorem dictGet_dictSet_self (d : ConvStore) (k : String) (v : List Turn) :
    dictGet (dictSet d k v) k = some v := by
  induction d with
  | nil => simp [dictSet, dictGet]
  | cons p rest ih =>
    obtain ⟨k', v'⟩ := p
    by_cases h : k' = k
    · simp [dictSet, dictGet, h]
    · simp [dictSet, dictGet, h, ih]

theorem dictGet_dictSet_ne (d : ConvStore) {k k' : String} (v : List Turn) (h : k' ≠ k) :
    dictGet (dictSet d k v) k' = dictGet d k' := by
  induction d with
  | nil => simp [dictSet, dictGet, Ne.symm h]
  | cons p rest ih =>
    obtain ⟨k2, v2⟩ := p
    by_cases h2 : k2 = k
    · subst h2
      simp [dictSet, dictGet, Ne.symm h]
    · simp [dictSet, dictGet, h2, ih]

theorem dictGetD_ensureKey_self (d : ConvStore) (k : String) :
    dictGetD (ensureKey d k) k [] = dictGetD d k [] := by
  rw [ensureKey]
  cases h : dictGet d k with
  | none => simp [h, dictGetD, dictGet_dictSet_self]
  | some v => simp [h, dictGetD]

theorem dictGet_ensureKey_ne (d : ConvStore) {k k' : String} (h : k' ≠ k) :
    dictGet (ensureKey d k) k' = dictGet d k' := by
  rw [ensureKey]
  by_cases hk : (dictGet d k).isNone
  · simp [hk, dictGet_dictSet_ne d _ h]
  · simp [hk]

theorem dictGetD_appendTurn_self (d : ConvStore) (k : String) (t : Turn) :
    dictGetD (appendTurn d k t) k [] = dictGetD d k [] ++ [t] := by
  rw [appendTurn, dictGetD, dictGet_dictSet_self]
  rfl

theorem dictGet_appendTurn_ne (d : ConvStore) {k k' : String} (t : Turn) (h : k' ≠ k) :
    dictGet (appendTurn d k t) k' = dictGet d k' := by
  rw [appendTurn]
  exact dictGet_dictSet_ne d _ h

/-! ## Unfolding lemmas for the two chat handlers -/

theorem chat_of_ne_empty (convs : ConvStore) (msgField cidField : Option String) (t1 t2 : String)
    (h : stripStr (msgField.getD "") ≠ "") :
    chat convs msgField cidField t1 t2 =
      { store :=
          appendTurn
            (appendTurn (ensureKey convs (cidField.getD "default")) (cidField.getD "default")
              ⟨"user", stripStr (msgField.getD ""), t1⟩)
            (cidField.getD "default")
            ⟨"bot", find_best_response (stripStr (msgField.getD "")) (cidField.getD "default"), t2⟩,
        status := 200,
        body := .success
          (find_best_response (stripStr (msgField.getD "")) (cidField.getD "default")) } := by
  simp only [chat, if_neg h]

theorem chat_old_of_raised (convs : ConvStore) (msgField cidField : Option String)
    (e t1 t2 : String) (h : stripStr (msgField.getD "") ≠ "") :
    chat_old true (.raised e) convs msgField cidField t1 t2 =
      { store :=
          appendTurn (ensureKey convs (cidField.getD "default")) (cidField.getD "default")
            ⟨"user", stripStr (msgField.getD ""), t1⟩,
        status := 500,
        body := .failure ("Error processing your question: " ++ e) } := by
  simp only [chat_old, Bool.not_true, Bool.false_eq_true, if_false, if_neg h]

theorem chat_old_of_ok (convs : ConvStore) (msgField cidField : Option String)
    (result : String) (srcs : List String) (t1 t2 : String)
    (h : stripStr (msgField.getD "") ≠ "") :
    chat_old true (.ok result srcs) convs msgField cidField t1 t2 =
      { store :=
          appendTurn
            (appendTurn (ensureKey convs (cidField.getD "default")) (cidField.getD "default")
              ⟨"user", stripStr (msgField.getD ""), t1⟩)
            (cidField.getD "default")
            ⟨"bot", add_sources result srcs, t2⟩,
        status := 200,
        body := .success (add_sources result srcs) } := by
  simp only [chat_old, Bool.not_true, Bool.false_eq_true, if_false, if_neg h]

/-- Claim C4: a `POST /api/chat` request whose message field is missing
or reduces to the empty string after stripping gets HTTP 400 in both
application variants, produces no answer, and leaves the conversation
store untouched. -/
theorem c4_empty_message_400 (convs : ConvStore) (msgField cidField : Option String)
    (t1 t2 : String) (rag : RagOutcome)
    (h : stripStr (msgField.getD "") = "") :
    chat convs msgField cidField t1 t2 =
      { store := convs, status := 400, body := .failure "Empty message" } ∧
    chat_old true rag convs msgField cidField t1 t2 =
      { store := convs, status := 400, body := .failure "Empty message" } := by
  constructor
  · simp only [chat, if_pos h]
  · simp only [chat_old, Bool.not_true, Bool.false_eq_true, if_false, if_pos h]

/-- Witness for C4: a whitespace-only message and a missing message. -/
theorem c4_empty_message_400_witness :
    chat [] (some "   ") none "t1" "t2" =
      { store := [], status := 400, body := .failure "Empty message" } ∧
    chat_old true (.raised "x") [] (some "   ") none "t1" "t2" =
      { store := [], status := 400, body := .failure "Empty message" } :=
  c4_empty_message_400 [] (some "   ") none "t1" "t2" (.raised "x") (by decide)

/-- Claim C5: `GET /api/history/<conversation_id>` returns HTTP 200 with
the full stored turn list for that id, and HTTP 200 with the empty list
(not a 404) when the id is unknown. -/
theorem c5_history_returns_list (convs : ConvStore) (conversation_id : String) :
    (∀ ts, dictGet convs conversation_id = some ts →
      get_history convs conversation_id = (200, ts)) ∧
    (dictGet convs conversation_id = none →
      get_history convs conversation_id = (200, [])) ∧
    (get_history convs conversation_id).1 = 200 := by
  refine ⟨?_, ?_, rfl⟩
  · intro ts h
    simp [get_history, dictGetD, h]
  · intro h
    simp [get_history, dictGetD, h]

/-- Witness for C5 on a concrete store: a known id and an unknown id. -/
theorem c5_history_returns_list_witness :
    get_history [("a", [⟨"user", "hi", "t"⟩])] "a" = (200, [⟨"user", "hi", "t"⟩]) ∧
    get_history [("a", [⟨"user", "hi", "t"⟩])] "b" = (200, []) :=
  ⟨(c5_history_returns_list [("a", [⟨"user", "hi", "t"⟩])] "a").1 _ (by decide),
   (c5_history_returns_list [("a", [⟨"user", "hi", "t"⟩])] "b").2.1 (by decide)⟩

/-- Claim C9 (implicit): a `POST /api/chat` request without a
`conversation_id` field behaves exactly like one with id `"default"`,
and its two turns accumulate in the shared `"default"` conversation. -/
theorem c9_missing_id_uses_default (convs : ConvStore) (msgField : Option String)
    (t1 t2 : String) (h : stripStr (msgField.getD "") ≠ "") :
    chat convs msgField none t1 t2 = chat convs msgField (some "default") t1 t2 ∧
    dictGetD (chat convs msgField none t1 t2).store "default" [] =
      dictGetD convs "default" [] ++
        [⟨"user", stripStr (msgField.getD ""), t1⟩,
         ⟨"bot", find_best_response (stripStr (msgField.getD "")) "default", t2⟩] := by
  refine ⟨rfl, ?_⟩
  rw [chat_of_ne_empty convs msgField none t1 t2 h]
  simp only [Option.getD_none]
  rw [dictGetD_appendTurn_self, dictGetD_appendTurn_self, dictGetD_ensureKey_self,
    List.append_assoc]
  rfl

/-- Witness for C9 at a concrete request. -/
theorem c9_missing_id_uses_default_witness :
    chat [] (some "halls") none "t1" "t2" = chat [] (some "halls") (some "default") "t1" "t2" ∧
    dictGetD (chat [] (some "halls") none "t1" "t2").store "default" [] =
      dictGetD [] "default" [] ++
        [⟨"user", stripStr ((some "halls").getD ""), "t1"⟩,
         ⟨"bot", find_best_response (stripStr ((some "halls").getD "")) "default", "t2"⟩] :=
  c9_missing_id_uses_default [] (some "halls") "t1" "t2" (by decide)

/-- Claim C10 (implicit): every successful `POST /api/chat` request, in
either variant, appends exactly two turns to its conversation — first a
user turn with the submitted (stripped) message, then a bot turn with
the returned response — and leaves earlier turns of that conversation
and every other conversation unchanged. -/
theorem c10_success_appends_two_turns (convs : ConvStore) (msgField cidField : Option String)
    (t1 t2 : String) (result : String) (srcs : List String)
    (h : stripStr (msgField.getD "") ≠ "") :
    ((chat convs msgField cidField t1 t2).status = 200 ∧
     (chat convs msgField cidField t1 t2).body =
       .success (find_best_response (stripStr (msgField.getD "")) (cidField.getD "default")) ∧
     dictGetD (chat convs msgField cidField t1 t2).store (cidField.getD "default") [] =
       dictGetD convs (cidField.getD "default") [] ++
         [⟨"user", stripStr (msgField.getD ""), t1⟩,
          ⟨"bot", find_best_response (stripStr (msgField.getD "")) (cidField.getD "default"), t2⟩] ∧
     ∀ k, k ≠ cidField.getD "default" →
       dictGet (chat convs msgField cidField t1 t2).store k = dictGet convs k) ∧
    ((chat_old true (.ok result srcs) convs msgField cidField t1 t2).status = 200 ∧
     (chat_old true (.ok result srcs) convs msgField cidField t1 t2).body =
       .success (add_sources result srcs) ∧
     dictGetD (chat_old true (.ok result srcs) convs msgField cidField t1 t2).store
         (cidField.getD "default") [] =
       dictGetD convs (cidField.getD "default") [] ++
         [⟨"user", stripStr (msgField.getD ""), t1⟩,
          ⟨"bot", add_sources result srcs, t2⟩] ∧
     ∀ k, k ≠ cidField.getD "default" →
       dictGet (chat_old true (.ok result srcs) convs msgField cidField t1 t2).store k =
         dictGet convs k) := by
  rw [chat_of_ne_empty convs msgField cidField t1 t2 h,
    chat_old_of_ok convs msgField cidField result srcs t1 t2 h]
  refine ⟨⟨rfl, rfl, ?_, ?_⟩, rfl, rfl, ?_, ?_⟩
  · rw [dictGetD_appendTurn_self, dictGetD_appendTurn_self, dictGetD_ensureKey_self,
      List.append_assoc]
    rfl
  · intro k hk
    rw [dictGet_appendTurn_ne _ _ hk, dictGet_appendTurn_ne _ _ hk, dictGet_ensureKey_ne _ hk]
  · rw [dictGetD_appendTurn_self, dictGetD_appendTurn_self, dictGetD_ensureKey_self,
      List.append_assoc]
    rfl
  · intro k hk
    rw [dictGet_appendTurn_ne _ _ hk, dictGet_appendTurn_ne _ _ hk, dictGet_ensureKey_ne _ hk]

/-- Witness for C10 on a concrete request against a store that already
holds another conversation. -/
theorem c10_success_appends_two_turns_witness :
    ((chat [("other", [⟨"user", "x", "t0"⟩])] (some "halls") (some "c1") "t1" "t2").status = 200 ∧
     (chat [("other", [⟨"user", "x", "t0"⟩])] (some "halls") (some "c1") "t1" "t2").body =
       .success (find_best_response (stripStr ((some "halls").getD ""))
         ((some "c1").getD "default")) ∧
     dictGetD (chat [("other", [⟨"user", "x", "t0"⟩])] (some "halls") (some "c1") "t1" "t2").store
         ((some "c1").getD "default") [] =
       dictGetD [("other", [⟨"user", "x", "t0"⟩])] ((some "c1").getD "default") [] ++
         [⟨"user", stripStr ((some "halls").getD ""), "t1"⟩,
          ⟨"bot", find_best_response (stripStr ((some "halls").getD ""))
            ((some "c1").getD "default"), "t2"⟩] ∧
     ∀ k, k ≠ (some "c1").getD "default" →
       dictGet (chat [("other", [⟨"user", "x", "t0"⟩])] (some "halls") (some "c1") "t1" "t2").store
           k =
         dictGet [("other", [⟨"user", "x", "t0"⟩])] k) ∧
    ((chat_old true (.ok "answer" ["datasets/a.pdf"]) [("other", [⟨"user", "x", "t0"⟩])]
        (some "halls") (some "c1") "t1" "t2").status = 200 ∧
     (chat_old true (.ok "answer" ["datasets/a.pdf"]) [("other", [⟨"user", "x", "t0"⟩])]
        (some "halls") (some "c1") "t1" "t2").body =
       .success (add_sources "answer" ["datasets/a.pdf"]) ∧
     dictGetD (chat_old true (.ok "answer" ["datasets/a.pdf"]) [("other", [⟨"user", "x", "t0"⟩])]
         (some "halls") (some "c1") "t1" "t2").store ((some "c1").getD "default") [] =
       dictGetD [("other", [⟨"user", "x", "t0"⟩])] ((some "c1").getD "default") [] ++
         [⟨"user", stripStr ((some "halls").getD ""), "t1"⟩,
          ⟨"bot", add_sources "answer" ["datasets/a.pdf"], "t2"⟩] ∧
     ∀ k, k ≠ (some "c1").getD "default" →
       dictGet (chat_old true (.ok "answer" ["datasets/a.pdf"]) [("other", [⟨"user", "x", "t0"⟩])]
           (some "halls") (some "c1") "t1" "t2").store k =
         dictGet [("other", [⟨"user", "x", "t0"⟩])] k) :=
  c10_success_appends_two_turns [("other", [⟨"user", "x", "t0"⟩])] (some "halls") (some "c1")
    "t1" "t2" "answer" ["datasets/a.pdf"] (by decide)

/-- Counterexample to C3 as stated: in the RAG chat path of
`app_old.py`, a generation-time failure is answered with HTTP 500 and
the raw exception text, not with an HTTP 200 localized fallback
message. -/
theorem c3_counterexample :
    (chat_old true (.raised "boom") [] (some "hi") none "t1" "t2").status = 500 ∧
    (chat_old true (.raised "boom") [] (some "hi") none "t1" "t2").status ≠ 200 ∧
    (chat_old true (.raised "boom") [] (some "hi") none "t1" "t2").body =
      .failure "Error processing your question: boom" := by
  refine ⟨?_, ?_, ?_⟩ <;> decide

/-- Claim C3 as amended: any generation-time exception in the RAG chat
path is caught and mapped to a JSON error payload
`'Error processing your question: ' + str(e)` with HTTP 500 (the user
turn already appended stays in the store); no raw exception propagates,
and only malformed requests (empty message) get HTTP 400. -/
theorem c3_amended_generation_failure_500 (convs : ConvStore) (msgField cidField : Option String)
    (e t1 t2 : String) (h : stripStr (msgField.getD "") ≠ "") :
    (chat_old true (.raised e) convs msgField cidField t1 t2).status = 500 ∧
    (chat_old true (.raised e) convs msgField cidField t1 t2).body =
      .failure ("Error processing your question: " ++ e) ∧
    dictGetD (chat_old true (.raised e) convs msgField cidField t1 t2).store
        (cidField.getD "default") [] =
      dictGetD convs (cidField.getD "default") [] ++
        [⟨"user", stripStr (msgField.getD ""), t1⟩] := by
  rw [chat_old_of_raised convs msgField cidField e t1 t2 h]
  refine ⟨rfl, rfl, ?_⟩
  rw [dictGetD_appendTurn_self, dictGetD_ensureKey_self]

/-- Witness for the amended C3 at a concrete failing generation. -/
theorem c3_amended_generation_failure_500_witness :
    (chat_old true (.raised "boom") [] (some "hi") none "t1" "t2").status = 500 ∧
    (chat_old true (.raised "boom") [] (some "hi") none "t1" "t2").body =
      .failure ("Error processing your question: " ++ "boom") ∧
    dictGetD (chat_old true (.raised "boom") [] (some "hi") none "t1" "t2").store
        ((none : Option String).getD "default") [] =
      dictGetD [] ((none : Option String).getD "default") [] ++
        [⟨"user", stripStr ((some "hi").getD ""), "t1"⟩] :=
  c3_amended_generation_failure_500 [] (some "hi") none "boom" "t1" "t2" (by decide)

/-! ## Lemmas about the first-seen dedup loop -/

theorem dedupStep_subset (acc : List String) (c : String) : acc ⊆ dedupStep acc c := by
  rw [dedupStep]
  by_cases h : acc.contains c
  · rw [if_pos h]
    exact List.Subset.refl _
  · rw [if_neg h]
    exact List.subset_append_left _ _

theorem foldl_dedupStep_acc_subset (l : List String) :
    ∀ acc, acc ⊆ l.foldl dedupStep acc := by
  induction l with
  | nil => intro acc; simp
  | cons c t ih =>
    intro acc
    rw [List.foldl_cons]
    exact (dedupStep_subset acc c).trans (ih _)

theorem foldl_dedupStep_mem (l : List String) :
    ∀ acc x, x ∈ l → x ∈ l.foldl dedupStep acc := by
  induction l with
  | nil => intro acc x hx; cases hx
  | cons c t ih =>
    intro acc x hx
    rw [List.foldl_cons]
    rcases List.mem_cons.1 hx with rfl | hx'
    · refine foldl_dedupStep_acc_subset t _ ?_
      rw [dedupStep]
      by_cases h : acc.contains x
      · rw [if_pos h]
        simpa using h
      · rw [if_neg h]
        simp
    · exact ih _ x hx'

theorem foldl_dedupStep_nodup (l : List String) :
    ∀ acc, acc.Nodup → (l.foldl dedupStep acc).Nodup := by
  induction l with
  | nil => intro acc h; simpa using h
  | cons c t ih =>
    intro acc h
    rw [List.foldl_cons]
    refine ih _ ?_
    rw [dedupStep]
    by_cases hc : acc.contains c
    · rwa [if_pos hc]
    · rw [if_neg hc]
      have hnc : c ∉ acc := by simpa using hc
      simp [List.nodup_append, h, hnc]

theorem foldl_dedupStep_sublist (l : List String) :
    ∀ acc, ∃ t, l.foldl dedupStep acc = acc ++ t ∧ t.Sublist l := by
  induction l with
  | nil => intro acc; exact ⟨[], by simp, List.nil_sublist _⟩
  | cons c cs ih =>
    intro acc
    rw [List.foldl_cons, dedupStep]
    by_cases h : acc.contains c
    · rw [if_pos h]
      obtain ⟨t, ht, hs⟩ := ih acc
      exact ⟨t, ht, hs.cons c⟩
    · rw [if_neg h]
      obtain ⟨t, ht, hs⟩ := ih (acc ++ [c])
      refine ⟨c :: t, ?_, hs.cons₂ c⟩
      rw [ht, List.append_assoc]
      rfl

theorem dedupFS_nodup (l : List String) : (dedupFS l).Nodup :=
  foldl_dedupStep_nodup l [] List.nodup_nil

theorem dedupFS_sublist (l : List String) : (dedupFS l).Sublist l := by
  obtain ⟨t, ht, hs⟩ := foldl_dedupStep_sublist l []
  rw [dedupFS, ht]
  simpa using hs

theorem mem_dedupFS {l : List String} {x : String} (h : x ∈ l) : x ∈ dedupFS l :=
  foldl_dedupStep_mem l [] x h

theorem dedupFS_ne_nil {l : List String} (h : l ≠ []) : dedupFS l ≠ [] := by
  cases l with
  | nil => cases h rfl
  | cons c t =>
    intro hnil
    have hm := mem_dedupFS (l := c :: t) (List.mem_cons_self c t)
    rw [hnil] at hm
    cases hm

/-- Counterexample to C6 as stated: the sources label appended by the
RAG post-processing of `app_old.py` is the fixed English `**Sources:**`
block whatever the language of the text — here a Chinese-bucket text and
an English-bucket text (per the spec's own detector) receive the
identical label — so the label is not language-appropriate. -/
theorem c6_counterexample :
    detect_language "你好" = Lang.chinese ∧
    detect_language "hello" = Lang.english ∧
    add_sources "你好" ["datasets/campus_guide.pdf"] =
      "你好" ++ "\n\n**Sources:**\n" ++ "  • campus guide" ∧
    add_sources "hello" ["datasets/campus_guide.pdf"] =
      "hello" ++ "\n\n**Sources:**\n" ++ "  • campus guide" := by
  refine ⟨?_, ?_, ?_, ?_⟩ <;> decide

/-- Claim C6 as amended: when at least one source document is returned,
the post-processing of `app_old.py` deduplicates the cleaned source
filenames in first-seen order (the displayed list has no duplicates, is
a subsequence of the cleaned name sequence, and contains every cleaned
name), displays at most 3 of them, and appends the fixed label
`**Sources:**` plus the bulleted list to the answer text. -/
theorem c6_amended_sources_block (answer : String) (srcs : List String) (h : srcs ≠ []) :
    add_sources answer srcs =
      answer ++ "\n\n**Sources:**\n" ++
        joinWith "\n" (((dedupFS (srcs.map clean_name)).take 3).map (fun s => "  • " ++ s)) ∧
    (dedupFS (srcs.map clean_name)).Nodup ∧
    (dedupFS (srcs.map clean_name)).Sublist (srcs.map clean_name) ∧
    (∀ x ∈ srcs.map clean_name, x ∈ dedupFS (srcs.map clean_name)) ∧
    ((dedupFS (srcs.map clean_name)).take 3).length ≤ 3 := by
  have hmapne : srcs.map clean_name ≠ [] := by
    cases srcs with
    | nil => cases h rfl
    | cons a t => simp
  have hne1 : ¬ srcs.isEmpty = true := by
    cases srcs with
    | nil => cases h rfl
    | cons a t => simp
  have hne2 : ¬ (dedupFS (srcs.map clean_name)).isEmpty = true := by
    have hd := dedupFS_ne_nil hmapne
    cases hdd : dedupFS (srcs.map clean_name) with
    | nil => cases hd hdd
    | cons a t => simp
  refine ⟨?_, dedupFS_nodup _, dedupFS_sublist _, fun x hx => mem_dedupFS hx, ?_⟩
  · rw [add_sources, if_neg hne1, if_neg hne2]
  · rw [List.length_take]
    exact min_le_left _ _

/-- Witness for the amended C6: five source paths with one duplicate
produce four deduplicated names capped to three displayed ones. -/
theorem c6_amended_sources_block_witness :
    (add_sources "ans" ["data/a_b.pdf", "data/a_b.pdf", "data/c.pdf", "data/d.pdf", "data/e.pdf"] =
      "ans" ++ "\n\n**Sources:**\n" ++
        joinWith "\n"
          (((dedupFS
            (["data/a_b.pdf", "data/a_b.pdf", "data/c.pdf", "data/d.pdf",
              "data/e.pdf"].map clean_name)).take 3).map (fun s => "  • " ++ s)) ∧
    (dedupFS (["data/a_b.pdf", "data/a_b.pdf", "data/c.pdf", "data/d.pdf",
      "data/e.pdf"].map clean_name)).Nodup ∧
    (dedupFS (["data/a_b.pdf", "data/a_b.pdf", "data/c.pdf", "data/d.pdf",
      "data/e.pdf"].map clean_name)).Sublist
        (["data/a_b.pdf", "data/a_b.pdf", "data/c.pdf", "data/d.pdf",
          "data/e.pdf"].map clean_name) ∧
    (∀ x ∈ ["data/a_b.pdf", "data/a_b.pdf", "data/c.pdf", "data/d.pdf",
        "data/e.pdf"].map clean_name,
      x ∈ dedupFS (["data/a_b.pdf", "data/a_b.pdf", "data/c.pdf", "data/d.pdf",
        "data/e.pdf"].map clean_name)) ∧
    ((dedupFS (["data/a_b.pdf", "data/a_b.pdf", "data/c.pdf", "data/d.pdf",
      "data/e.pdf"].map clean_name)).take 3).length ≤ 3) :=
  c6_amended_sources_block "ans"
    ["data/a_b.pdf", "data/a_b.pdf", "data/c.pdf", "data/d.pdf", "data/e.pdf"] (by decide)

/-- Claim C8: the analytics satisfaction rate `up / (up + down) * 100`
is 0 when zero ratings have been recorded, rather than a division
error (and is the expected percentage otherwise, e.g. 25% for one up
and three down). -/
theorem c8_satisfaction_rate_zero :
    satisfaction_rate 0 0 = 0 ∧ satisfaction_rate 1 3 = 25 := by
  constructor
  · norm_num [satisfaction_rate]
  · norm_num [satisfaction_rate]
